import Mathlib

/-!
Shallow embedding of the messaging feature of the TrackIt API
(`src/services/message.service.ts`, `src/controllers/message.controller.js`,
`src/models/message.ts`).

The document store is modelled as explicit lists of `User` and `Message`
records; each service operation is a pure function from the store (plus the
clock and the identifier the persistence layer would mint) to either an error
message (the service throws plain `Error`s carrying Spanish message strings,
which the HTTP controllers match on by substring) or the new store together
with the returned record.
-/

namespace TrackIt

/-- A stored `Message` document (models/Message.ts): `content`, `sender`,
`receiver` (identifiers referencing `User`), `read`, `createdAt`, and the
`updatedAt` field written only by `updateMessage`. -/
structure Message where
  _id : String
  content : String
  sender : String
  receiver : String
  read : Bool
  createdAt : Nat
  updatedAt : Option Nat
deriving DecidableEq

/-- The slice of a `User` document the messaging logic consults:
`_id`, `available`, plus the `name`/`email` exposed by `populate`. -/
structure User where
  _id : String
  name : String
  email : String
  available : Bool
deriving DecidableEq

/-- The document store: the `User` and `Message` collections. -/
structure Store where
  users : List User
  messages : List Message
deriving DecidableEq

/-- Models `mongoose.Types.ObjectId.isValid`: a 24-character hex string or a
12-character string. -/
def isHexChar (c : Char) : Bool :=
  c.isDigit || (('a' ≤ c) && (c ≤ 'f')) || (('A' ≤ c) && (c ≤ 'F'))

def isValidObjectId (s : String) : Bool :=
  (s.length = 24 && s.data.all isHexChar) || s.length = 12

/-- Error text "El contenido del mensaje es requerido" — thrown by `sendMessage` and
`updateMessage` when content is missing, not a string, or blank. -/
def contentRequiredMsg : String := "El contenido del mensaje es requerido"

def senderNotFoundMsg : String := "Remitente no encontrado o no disponible"

def receiverNotFoundMsg : String := "Destinatario no encontrado o no disponible"

def invalidMessageIdMsg : String := "ID de mensaje inválido"

def invalidSenderIdMsg : String := "ID de remitente inválido"

def updateNotFoundMsg : String :=
  "Mensaje no encontrado o no tienes permiso para editarlo"

def deleteNotFoundMsg : String :=
  "Mensaje no encontrado o no tienes permiso para eliminarlo"

/-- Whitespace characters removed by `String.prototype.trim`. -/
def isSpaceChar (c : Char) : Bool :=
  c == ' ' || c == '\t' || c == '\r' || c == '\n'

/-- Models `content.trim()`: strip leading and trailing whitespace. -/
def jsTrim (s : String) : String :=
  ⟨((s.data.dropWhile isSpaceChar).reverse.dropWhile isSpaceChar).reverse⟩

/-- The JS guard of `!content || typeof content !== 'string' || content.trim().length === 0`:
`none` models a missing or non-string body field. -/
def isBlankContent : Option String → Bool
  | none => true
  | some s => (jsTrim s).length = 0

/-- Models `UserModel.findOne({ _id: id, available: true })`. -/
def findOneAvailableUser (users : List User) (id : String) : Option User :=
  users.find? (fun u => u._id == id && u.available)

/-- Models `MessageService.sendMessage`: validate content, look up both users
constrained to `available = true` (sender checked first), then persist a new
message with trimmed content, `read = false`, `createdAt = now`. -/
def sendMessage (store : Store) (now : Nat) (newId : String)
    (senderId receiverId : String) (content : Option String) :
    Except String (Store × Message) :=
  if isBlankContent content then
    .error contentRequiredMsg
  else
    match findOneAvailableUser store.users senderId with
    | none => .error senderNotFoundMsg
    | some sender =>
      match findOneAvailableUser store.users receiverId with
      | none => .error receiverNotFoundMsg
      | some receiver =>
        let newMessage : Message :=
          { _id := newId
            content := jsTrim (content.getD "")
            sender := sender._id
            receiver := receiver._id
            read := false
            createdAt := now
            updatedAt := none }
        .ok ({ store with messages := store.messages ++ [newMessage] }, newMessage)

/-- The `$or` filter of `getMessagesBetweenUsers`:
`(sender = userId1 ∧ receiver = userId2) ∨ (sender = userId2 ∧ receiver = userId1)`. -/
def betweenPair (userId1 userId2 : String) (m : Message) : Bool :=
  (m.sender == userId1 && m.receiver == userId2) ||
  (m.sender == userId2 && m.receiver == userId1)

/-- Models `.sort({ createdAt: -1 })`: `a` may precede `b` when `a.createdAt ≥ b.createdAt`. -/
def createdAtDesc (a b : Message) : Bool :=
  b.createdAt ≤ a.createdAt

/-- Models `MessageService.getMessagesBetweenUsers`: all messages of the pair in
either direction, ordered by `createdAt` descending. Never throws. -/
def getMessagesBetweenUsers (store : Store) (userId1 userId2 : String) :
    List Message :=
  (store.messages.filter (betweenPair userId1 userId2)).mergeSort createdAtDesc

/-- The match criteria of `findOneAndUpdate` / `findOneAndDelete`:
`{ _id: messageId, sender: senderId }`. -/
def ownedBy (messageId senderId : String) (m : Message) : Bool :=
  m._id == messageId && m.sender == senderId

/-- The `$set` of `updateMessage`: trimmed content and `updatedAt = now`. -/
def applyContentUpdate (now : Nat) (newContent : String) (m : Message) : Message :=
  { m with content := jsTrim newContent, updatedAt := some now }

/-- Mutate the first element matching `p` (the single document a
`findOneAndUpdate` touches). -/
def updateFirst (p : α → Bool) (f : α → α) : List α → List α
  | [] => []
  | x :: xs => if p x then f x :: xs else x :: updateFirst p f xs

/-- Models `MessageService.updateMessage`: validate both identifiers and the content,
then atomically match `{_id, sender}` and `$set` the new content and
`updatedAt`; `new: true` returns the post-update document. -/
def updateMessage (store : Store) (now : Nat) (messageId : String)
    (newContent : Option String) (senderId : String) :
    Except String (Store × Message) :=
  if isValidObjectId messageId = false then
    .error invalidMessageIdMsg
  else if isBlankContent newContent then
    .error contentRequiredMsg
  else if isValidObjectId senderId = false then
    .error invalidSenderIdMsg
  else
    match store.messages.find? (ownedBy messageId senderId) with
    | none => .error updateNotFoundMsg
    | some m =>
      .ok ({ store with
              messages := updateFirst (ownedBy messageId senderId)
                (applyContentUpdate now (newContent.getD "")) store.messages },
           applyContentUpdate now (newContent.getD "") m)

/-- Models `MessageService.deleteMessage`: validate both identifiers, then atomically
match `{_id, sender}` and delete; returns the deleted document. -/
def deleteMessage (store : Store) (messageId senderId : String) :
    Except String (Store × Message) :=
  if isValidObjectId messageId = false then
    .error invalidMessageIdMsg
  else if isValidObjectId senderId = false then
    .error invalidSenderIdMsg
  else
    match store.messages.find? (ownedBy messageId senderId) with
    | none => .error deleteNotFoundMsg
    | some m =>
      .ok ({ store with
              messages := store.messages.eraseP (ownedBy messageId senderId) }, m)

/-- The store an operation leaves behind: a thrown error aborts before any
write, so the store is untouched on the error path. -/
def storeAfter (store : Store) (r : Except String (Store × Message)) : Store :=
  match r with
  | .ok (s, _) => s
  | .error _ => store

/-- Character-list prefix test used to model substring search. -/
def hasPrefixChars : List Char → List Char → Bool
  | [], _ => true
  | _ :: _, [] => false
  | p :: ps, c :: cs => p == c && hasPrefixChars ps cs

/-- Does `pat` occur as a contiguous run inside the character list? -/
def hasSubstrChars (pat : List Char) : List Char → Bool
  | [] => pat.isEmpty
  | c :: cs => hasPrefixChars pat (c :: cs) || hasSubstrChars pat cs

/-- Models `error.message.includes(pat)`. -/
def includesSubstr (s pat : String) : Bool :=
  hasSubstrChars pat.data s.data

def invalidWord : String := "inválido"

def noPermissionWord : String := "no tienes permiso"

def notFoundWord : String := "no encontrado"

/-- The catch-block of the update/delete controllers: 400 on "inválido",
then 403 on "no tienes permiso", then 404 on "no encontrado", else 500. -/
def updateDeleteErrorStatus (msg : String) : Nat :=
  if includesSubstr msg invalidWord then 400
  else if includesSubstr msg noPermissionWord then 403
  else if includesSubstr msg notFoundWord then 404
  else 500

/-- The catch-block of the GET controller: 400 on "inválido", else 500. -/
def getErrorStatus (msg : String) : Nat :=
  if includesSubstr msg invalidWord then 400
  else 500

/-- The JS truthiness test `!field` on a request-body string field. -/
def isFalsyStr : Option String → Bool
  | none => true
  | some s => s.isEmpty

/-- HTTP status returned by the `updateMessage` controller. -/
def updateMessageController (store : Store) (now : Nat) (messageId : String)
    (content senderId : Option String) : Nat :=
  if isFalsyStr content || isFalsyStr senderId then 400
  else
    match updateMessage store now messageId content (senderId.getD "") with
    | .ok _ => 200
    | .error e => updateDeleteErrorStatus e

/-- HTTP status returned by the `deleteMessage` controller. -/
def deleteMessageController (store : Store) (messageId : String)
    (senderId : Option String) : Nat :=
  if isFalsyStr senderId then 400
  else
    match deleteMessage store messageId (senderId.getD "") with
    | .ok _ => 200
    | .error e => updateDeleteErrorStatus e

/-- HTTP status returned by the `getMessagesBetweenUsers` controller:
404 when the (never-throwing) service returns an empty list, else 200. -/
def getMessagesController (store : Store) (userId1 userId2 : String) : Nat :=
  if (getMessagesBetweenUsers store userId1 userId2).length = 0 then 404
  else 200

/-! ## Theorems -/

/-- C3: for every sender, receiver and content that is missing, not a string,
or empty after trimming, `sendMessage` fails with the ValidationError
("El contenido del mensaje es requerido") before any user lookup or write;
the store is unchanged. -/
theorem sendMessage_blank_content_validationError
    (store : Store) (now : Nat) (newId senderId receiverId : String)
    (content : Option String) (hc : isBlankContent content = true) :
    sendMessage store now newId senderId receiverId content =
      .error contentRequiredMsg ∧
    storeAfter store (sendMessage store now newId senderId receiverId content) =
      store := by
  simp [sendMessage, hc, storeAfter]

theorem sendMessage_blank_content_validationError_witness :
    isBlankContent (some "   ") = true ∧
    (sendMessage ⟨[], []⟩ 0 "cccccccccccccccccccccccc"
        "aaaaaaaaaaaaaaaaaaaaaaaa" "bbbbbbbbbbbbbbbbbbbbbbbb" (some "   ") =
      .error contentRequiredMsg ∧
    storeAfter ⟨[], []⟩ (sendMessage ⟨[], []⟩ 0 "cccccccccccccccccccccccc"
        "aaaaaaaaaaaaaaaaaaaaaaaa" "bbbbbbbbbbbbbbbbbbbbbbbb" (some "   ")) =
      ⟨[], []⟩) :=
  ⟨by decide,
   sendMessage_blank_content_validationError ⟨[], []⟩ 0 "cccccccccccccccccccccccc"
     "aaaaaaaaaaaaaaaaaaaaaaaa" "bbbbbbbbbbbbbbbbbbbbbbbb" (some "   ") (by decide)⟩

/-- C1: with well-formed identifiers (and non-blank content for update), when
no stored message matches both `_id = messageId` and `sender = senderId`,
`updateMessage` and `deleteMessage` each fail with the single conflated
NotFoundError and leave the store unchanged; the match on `_id` and `sender`
is the one atomic criteria of the find-and-mutate. -/
theorem updateDelete_noMatch_notFoundError
    (store : Store) (now : Nat) (messageId senderId : String)
    (newContent : Option String)
    (hmid : isValidObjectId messageId = true)
    (hsid : isValidObjectId senderId = true)
    (hc : isBlankContent newContent = false)
    (hno : ∀ m ∈ store.messages, ownedBy messageId senderId m = false) :
    updateMessage store now messageId newContent senderId =
      .error updateNotFoundMsg ∧
    deleteMessage store messageId senderId = .error deleteNotFoundMsg ∧
    storeAfter store (updateMessage store now messageId newContent senderId) =
      store ∧
    storeAfter store (deleteMessage store messageId senderId) = store := by
  have hfind : store.messages.find? (ownedBy messageId senderId) = none := by
    rw [List.find?_eq_none]
    intro m hm
    simp [hno m hm]
  refine ⟨?_, ?_, ?_, ?_⟩ <;>
    simp [updateMessage, deleteMessage, hmid, hsid, hc, hfind, storeAfter]

theorem updateDelete_noMatch_notFoundError_witness :
    (isValidObjectId "aaaaaaaaaaaaaaaaaaaaaaaa" = true ∧
     isValidObjectId "cccccccccccccccccccccccc" = true ∧
     isBlankContent (some "hola") = false ∧
     (∀ m ∈ ({ users := [],
               messages := [{ _id := "aaaaaaaaaaaaaaaaaaaaaaaa", content := "hi",
                              sender := "bbbbbbbbbbbbbbbbbbbbbbbb",
                              receiver := "cccccccccccccccccccccccc", read := false,
                              createdAt := 0, updatedAt := none }] } : Store).messages,
        ownedBy "aaaaaaaaaaaaaaaaaaaaaaaa" "cccccccccccccccccccccccc" m = false)) ∧
    updateMessage
      { users := [],
        messages := [{ _id := "aaaaaaaaaaaaaaaaaaaaaaaa", content := "hi",
                       sender := "bbbbbbbbbbbbbbbbbbbbbbbb",
                       receiver := "cccccccccccccccccccccccc", read := false,
                       createdAt := 0, updatedAt := none }] }
      5 "aaaaaaaaaaaaaaaaaaaaaaaa" (some "hola") "cccccccccccccccccccccccc" =
      .error updateNotFoundMsg := by
  refine ⟨⟨by decide, by decide, by decide, by decide⟩, ?_⟩
  exact (updateDelete_noMatch_notFoundError _ 5 "aaaaaaaaaaaaaaaaaaaaaaaa"
    "cccccccccccccccccccccccc" (some "hola") (by decide) (by decide) (by decide)
    (by decide)).1

/-- C4: with non-blank content, each of sender and receiver is looked up
constrained to `available = true`; the operation fails with the
sender-specific NotFoundError iff the sender lookup misses, with the
receiver-specific one iff the sender lookup hits and the receiver lookup
misses, and a missed lookup writes nothing. -/
theorem sendMessage_lookup_notFoundError
    (store : Store) (now : Nat) (newId senderId receiverId : String)
    (content : Option String) (hc : isBlankContent content = false) :
    (sendMessage store now newId senderId receiverId content =
        .error senderNotFoundMsg ↔
      findOneAvailableUser store.users senderId = none) ∧
    (sendMessage store now newId senderId receiverId content =
        .error receiverNotFoundMsg ↔
      (findOneAvailableUser store.users senderId).isSome = true ∧
        findOneAvailableUser store.users receiverId = none) ∧
    ((findOneAvailableUser store.users senderId = none ∨
      findOneAvailableUser store.users receiverId = none) →
      storeAfter store (sendMessage store now newId senderId receiverId content) =
        store) := by
  rcases hs : findOneAvailableUser store.users senderId with _ | s <;>
    rcases hr : findOneAvailableUser store.users receiverId with _ | r <;>
      simp [sendMessage, hc, hs, hr, storeAfter,
        (by decide : senderNotFoundMsg ≠ receiverNotFoundMsg),
        (by decide : receiverNotFoundMsg ≠ senderNotFoundMsg)]

theorem sendMessage_lookup_notFoundError_witness :
    isBlankContent (some "hola") = false ∧
    (sendMessage
        { users := [{ _id := "bbbbbbbbbbbbbbbbbbbbbbbb", name := "Bob",
                      email := "bob@example.com", available := true }],
          messages := [] }
        7 "cccccccccccccccccccccccc" "aaaaaaaaaaaaaaaaaaaaaaaa"
        "bbbbbbbbbbbbbbbbbbbbbbbb" (some "hola") =
        .error senderNotFoundMsg ↔
      findOneAvailableUser
        [{ _id := "bbbbbbbbbbbbbbbbbbbbbbbb", name := "Bob",
           email := "bob@example.com", available := true }]
        "aaaaaaaaaaaaaaaaaaaaaaaa" = none) := by
  refine ⟨by decide, ?_⟩
  exact (sendMessage_lookup_notFoundError
    { users := [{ _id := "bbbbbbbbbbbbbbbbbbbbbbbb", name := "Bob",
                  email := "bob@example.com", available := true }],
      messages := [] }
    7 "cccccccccccccccccccccccc" "aaaaaaaaaaaaaaaaaaaaaaaa"
    "bbbbbbbbbbbbbbbbbbbbbbbb" (some "hola") (by decide)).1

/-- C5: with non-blank content and both users found available, `sendMessage`
persists exactly one new Message — trimmed content, `read = false`,
`createdAt = now`, `sender`/`receiver` the resolved `_id`s of the looked-up
users (which equal the requested identifiers) — and returns that record. -/
theorem sendMessage_success_persists
    (store : Store) (now : Nat) (newId senderId receiverId c : String)
    (s r : User)
    (hc : isBlankContent (some c) = false)
    (hs : findOneAvailableUser store.users senderId = some s)
    (hr : findOneAvailableUser store.users receiverId = some r) :
    sendMessage store now newId senderId receiverId (some c) =
      .ok ({ store with messages := store.messages ++
              [{ _id := newId, content := jsTrim c, sender := s._id,
                 receiver := r._id, read := false, createdAt := now,
                 updatedAt := none }] },
           { _id := newId, content := jsTrim c, sender := s._id,
             receiver := r._id, read := false, createdAt := now,
             updatedAt := none }) ∧
    s._id = senderId ∧ r._id = receiverId ∧
    s.available = true ∧ r.available = true := by
  have hps := List.find?_some hs
  have hpr := List.find?_some hr
  simp only [Bool.and_eq_true, beq_iff_eq] at hps hpr
  exact ⟨by simp [sendMessage, hc, hs, hr], hps.1, hpr.1, hps.2, hpr.2⟩

theorem sendMessage_success_persists_witness :
    isBlankContent (some " hola ") = false ∧
    sendMessage
      { users := [{ _id := "aaaaaaaaaaaaaaaaaaaaaaaa", name := "Alice",
                    email := "alice@example.com", available := true },
                  { _id := "bbbbbbbbbbbbbbbbbbbbbbbb", name := "Bob",
                    email := "bob@example.com", available := true }],
        messages := [] }
      7 "cccccccccccccccccccccccc" "aaaaaaaaaaaaaaaaaaaaaaaa"
      "bbbbbbbbbbbbbbbbbbbbbbbb" (some " hola ") =
      .ok ({ users := [{ _id := "aaaaaaaaaaaaaaaaaaaaaaaa", name := "Alice",
                         email := "alice@example.com", available := true },
                       { _id := "bbbbbbbbbbbbbbbbbbbbbbbb", name := "Bob",
                         email := "bob@example.com", available := true }],
             messages := [{ _id := "cccccccccccccccccccccccc",
                            content := jsTrim " hola ",
                            sender := "aaaaaaaaaaaaaaaaaaaaaaaa",
                            receiver := "bbbbbbbbbbbbbbbbbbbbbbbb",
                            read := false, createdAt := 7,
                            updatedAt := none }] },
           { _id := "cccccccccccccccccccccccc", content := jsTrim " hola ",
             sender := "aaaaaaaaaaaaaaaaaaaaaaaa",
             receiver := "bbbbbbbbbbbbbbbbbbbbbbbb", read := false,
             createdAt := 7, updatedAt := none }) := by
  refine ⟨by decide, ?_⟩
  exact (sendMessage_success_persists
    { users := [{ _id := "aaaaaaaaaaaaaaaaaaaaaaaa", name := "Alice",
                  email := "alice@example.com", available := true },
                { _id := "bbbbbbbbbbbbbbbbbbbbbbbb", name := "Bob",
                  email := "bob@example.com", available := true }],
      messages := [] }
    7 "cccccccccccccccccccccccc" "aaaaaaaaaaaaaaaaaaaaaaaa"
    "bbbbbbbbbbbbbbbbbbbbbbbb" " hola "
    { _id := "aaaaaaaaaaaaaaaaaaaaaaaa", name := "Alice",
      email := "alice@example.com", available := true }
    { _id := "bbbbbbbbbbbbbbbbbbbbbbbb", name := "Bob",
      email := "bob@example.com", available := true }
    (by decide) (by decide) (by decide)).1

/-- C10: self-messaging is permitted — when `uid` names an available user,
`sendMessage(uid, uid, content)` with non-blank content succeeds, the same
user satisfying both lookups, and the persisted message has
`sender = receiver = uid`'s resolved `_id`. -/
theorem sendMessage_self_messaging
    (store : Store) (now : Nat) (newId uid c : String) (u : User)
    (hc : isBlankContent (some c) = false)
    (hu : findOneAvailableUser store.users uid = some u) :
    sendMessage store now newId uid uid (some c) =
      .ok ({ store with messages := store.messages ++
              [{ _id := newId, content := jsTrim c, sender := u._id,
                 receiver := u._id, read := false, createdAt := now,
                 updatedAt := none }] },
           { _id := newId, content := jsTrim c, sender := u._id,
             receiver := u._id, read := false, createdAt := now,
             updatedAt := none }) := by
  simp [sendMessage, hc, hu]

theorem sendMessage_self_messaging_witness :
    isBlankContent (some "nota para mi") = false ∧
    sendMessage
      { users := [{ _id := "aaaaaaaaaaaaaaaaaaaaaaaa", name := "Alice",
                    email := "alice@example.com", available := true }],
        messages := [] }
      3 "cccccccccccccccccccccccc" "aaaaaaaaaaaaaaaaaaaaaaaa"
      "aaaaaaaaaaaaaaaaaaaaaaaa" (some "nota para mi") =
      .ok ({ users := [{ _id := "aaaaaaaaaaaaaaaaaaaaaaaa", name := "Alice",
                         email := "alice@example.com", available := true }],
             messages := [{ _id := "cccccccccccccccccccccccc",
                            content := jsTrim "nota para mi",
                            sender := "aaaaaaaaaaaaaaaaaaaaaaaa",
                            receiver := "aaaaaaaaaaaaaaaaaaaaaaaa",
                            read := false, createdAt := 3,
                            updatedAt := none }] },
           { _id := "cccccccccccccccccccccccc", content := jsTrim "nota para mi",
             sender := "aaaaaaaaaaaaaaaaaaaaaaaa",
             receiver := "aaaaaaaaaaaaaaaaaaaaaaaa", read := false,
             createdAt := 3, updatedAt := none }) := by
  refine ⟨by decide, ?_⟩
  exact sendMessage_self_messaging
    { users := [{ _id := "aaaaaaaaaaaaaaaaaaaaaaaa", name := "Alice",
                  email := "alice@example.com", available := true }],
      messages := [] }
    3 "cccccccccccccccccccccccc" "aaaaaaaaaaaaaaaaaaaaaaaa" "nota para mi"
    { _id := "aaaaaaaaaaaaaaaaaaaaaaaa", name := "Alice",
      email := "alice@example.com", available := true }
    (by decide) (by decide)

/-- The single document a `findOneAndUpdate` matched is present, mutated, in
the written-back collection. -/
theorem mem_updateFirst_of_found {p : α → Bool} {f : α → α} {l : List α} {m : α}
    (h : l.find? p = some m) : f m ∈ updateFirst p f l := by
  induction l with
  | nil => simp at h
  | cons x xs ih =>
    rw [List.find?_cons] at h
    cases hx : p x with
    | true =>
      rw [hx] at h
      cases h
      simp [updateFirst, hx]
    | false =>
      rw [hx] at h
      simpa [updateFirst, hx] using .inr (ih h)

/-- After erasing the one match of `p`, no match of `p` remains (the `_id`
match criteria select at most one document). -/
theorem find?_eraseP_of_unique {p : α → Bool} {l : List α}
    (h : (l.filter p).length ≤ 1) : (l.eraseP p).find? p = none := by
  induction l with
  | nil => simp
  | cons x xs ih =>
    cases hx : p x with
    | true =>
      simp only [List.eraseP_cons, hx, cond_true]
      rw [List.find?_eq_none]
      intro a ha hpa
      have hxs : (xs.filter p).length = 0 := by
        rw [List.filter_cons_of_pos hx] at h
        simpa using h
      have : a ∈ xs.filter p := List.mem_filter.mpr ⟨ha, hpa⟩
      rw [List.length_eq_zero.mp hxs] at this
      simp at this
    | false =>
      simp only [List.eraseP_cons, hx, cond_false]
      rw [List.find?_cons, hx]
      rw [List.filter_cons_of_neg (by simp [hx])] at h
      exact ih h

/-- C6: with well-formed identifiers, non-blank content, and a stored message
matching `_id = messageId ∧ sender = senderId`, `updateMessage` succeeds: the
stored message's content becomes the trimmed new content, `updatedAt = now`
(which is ≥ `createdAt` whenever the clock has not gone backwards since
creation), and the returned record is the post-update state, present in the
written-back store. -/
theorem updateMessage_owner_success
    (store : Store) (now : Nat) (messageId senderId newContent : String)
    (m : Message)
    (hmid : isValidObjectId messageId = true)
    (hsid : isValidObjectId senderId = true)
    (hc : isBlankContent (some newContent) = false)
    (hfound : store.messages.find? (ownedBy messageId senderId) = some m)
    (hclock : m.createdAt ≤ now) :
    updateMessage store now messageId (some newContent) senderId =
      .ok ({ store with
              messages := updateFirst (ownedBy messageId senderId)
                (applyContentUpdate now newContent) store.messages },
           applyContentUpdate now newContent m) ∧
    (applyContentUpdate now newContent m).content = jsTrim newContent ∧
    (applyContentUpdate now newContent m).updatedAt = some now ∧
    (applyContentUpdate now newContent m).createdAt ≤ now ∧
    applyContentUpdate now newContent m ∈
      updateFirst (ownedBy messageId senderId)
        (applyContentUpdate now newContent) store.messages := by
  refine ⟨by simp [updateMessage, hmid, hsid, hc, hfound], rfl, rfl, ?_,
    mem_updateFirst_of_found hfound⟩
  simpa [applyContentUpdate] using hclock

theorem updateMessage_owner_success_witness :
    (isValidObjectId "aaaaaaaaaaaaaaaaaaaaaaaa" = true ∧
     isValidObjectId "bbbbbbbbbbbbbbbbbbbbbbbb" = true ∧
     isBlankContent (some " editado ") = false ∧
     ({ users := [],
        messages := [{ _id := "aaaaaaaaaaaaaaaaaaaaaaaa", content := "hola",
                       sender := "bbbbbbbbbbbbbbbbbbbbbbbb",
                       receiver := "cccccccccccccccccccccccc", read := false,
                       createdAt := 2, updatedAt := none }] } : Store).messages.find?
        (ownedBy "aaaaaaaaaaaaaaaaaaaaaaaa" "bbbbbbbbbbbbbbbbbbbbbbbb") =
        some { _id := "aaaaaaaaaaaaaaaaaaaaaaaa", content := "hola",
               sender := "bbbbbbbbbbbbbbbbbbbbbbbb",
               receiver := "cccccccccccccccccccccccc", read := false,
               createdAt := 2, updatedAt := none } ∧
     (2 : Nat) ≤ 5) ∧
    updateMessage
      { users := [],
        messages := [{ _id := "aaaaaaaaaaaaaaaaaaaaaaaa", content := "hola",
                       sender := "bbbbbbbbbbbbbbbbbbbbbbbb",
                       receiver := "cccccccccccccccccccccccc", read := false,
                       createdAt := 2, updatedAt := none }] }
      5 "aaaaaaaaaaaaaaaaaaaaaaaa" (some " editado ") "bbbbbbbbbbbbbbbbbbbbbbbb" =
      .ok ({ users := [],
             messages := updateFirst
               (ownedBy "aaaaaaaaaaaaaaaaaaaaaaaa" "bbbbbbbbbbbbbbbbbbbbbbbb")
               (applyContentUpdate 5 " editado ")
               [{ _id := "aaaaaaaaaaaaaaaaaaaaaaaa", content := "hola",
                  sender := "bbbbbbbbbbbbbbbbbbbbbbbb",
                  receiver := "cccccccccccccccccccccccc", read := false,
                  createdAt := 2, updatedAt := none }] },
           applyContentUpdate 5 " editado "
             { _id := "aaaaaaaaaaaaaaaaaaaaaaaa", content := "hola",
               sender := "bbbbbbbbbbbbbbbbbbbbbbbb",
               receiver := "cccccccccccccccccccccccc", read := false,
               createdAt := 2, updatedAt := none }) := by
  refine ⟨⟨by decide, by decide, by decide, by decide, by decide⟩, ?_⟩
  exact (updateMessage_owner_success
    { users := [],
      messages := [{ _id := "aaaaaaaaaaaaaaaaaaaaaaaa", content := "hola",
                     sender := "bbbbbbbbbbbbbbbbbbbbbbbb",
                     receiver := "cccccccccccccccccccccccc", read := false,
                     createdAt := 2, updatedAt := none }] }
    5 "aaaaaaaaaaaaaaaaaaaaaaaa" "bbbbbbbbbbbbbbbbbbbbbbbb" " editado "
    { _id := "aaaaaaaaaaaaaaaaaaaaaaaa", content := "hola",
      sender := "bbbbbbbbbbbbbbbbbbbbbbbb",
      receiver := "cccccccccccccccccccccccc", read := false,
      createdAt := 2, updatedAt := none }
    (by decide) (by decide) (by decide) (by decide) (by decide)).1

/-- C7: deleting a message twice with the same id and same sender — when a
stored message matches (and `_id`s select at most one document) the first
call succeeds, removes it, and returns the deleted record; the second call
fails with the conflated NotFoundError and leaves the store unchanged. -/
theorem deleteMessage_twice_spec
    (store : Store) (messageId senderId : String) (m : Message)
    (hmid : isValidObjectId messageId = true)
    (hsid : isValidObjectId senderId = true)
    (hfound : store.messages.find? (ownedBy messageId senderId) = some m)
    (huniq : (store.messages.filter (ownedBy messageId senderId)).length ≤ 1) :
    deleteMessage store messageId senderId =
      .ok ({ store with
              messages := store.messages.eraseP (ownedBy messageId senderId) },
           m) ∧
    m ∉ store.messages.eraseP (ownedBy messageId senderId) ∧
    deleteMessage
      { store with
         messages := store.messages.eraseP (ownedBy messageId senderId) }
      messageId senderId = .error deleteNotFoundMsg ∧
    storeAfter
      { store with
         messages := store.messages.eraseP (ownedBy messageId senderId) }
      (deleteMessage
        { store with
           messages := store.messages.eraseP (ownedBy messageId senderId) }
        messageId senderId) =
      { store with
         messages := store.messages.eraseP (ownedBy messageId senderId) } := by
  have hnone : (store.messages.eraseP (ownedBy messageId senderId)).find?
      (ownedBy messageId senderId) = none :=
    find?_eraseP_of_unique huniq
  have hpm : ownedBy messageId senderId m = true := List.find?_some hfound
  refine ⟨by simp [deleteMessage, hmid, hsid, hfound], ?_,
    by simp [deleteMessage, hmid, hsid, hnone],
    by simp [deleteMessage, hmid, hsid, hnone, storeAfter]⟩
  intro hm
  exact (List.find?_eq_none.mp hnone m hm) hpm

theorem deleteMessage_twice_spec_witness :
    (isValidObjectId "aaaaaaaaaaaaaaaaaaaaaaaa" = true ∧
     isValidObjectId "bbbbbbbbbbbbbbbbbbbbbbbb" = true ∧
     ({ users := [],
        messages := [{ _id := "aaaaaaaaaaaaaaaaaaaaaaaa", content := "hola",
                       sender := "bbbbbbbbbbbbbbbbbbbbbbbb",
                       receiver := "cccccccccccccccccccccccc", read := false,
                       createdAt := 2, updatedAt := none }] } : Store).messages.find?
        (ownedBy "aaaaaaaaaaaaaaaaaaaaaaaa" "bbbbbbbbbbbbbbbbbbbbbbbb") =
        some { _id := "aaaaaaaaaaaaaaaaaaaaaaaa", content := "hola",
               sender := "bbbbbbbbbbbbbbbbbbbbbbbb",
               receiver := "cccccccccccccccccccccccc", read := false,
               createdAt := 2, updatedAt := none }) ∧
    deleteMessage
      { users := [],
        messages := [{ _id := "aaaaaaaaaaaaaaaaaaaaaaaa", content := "hola",
                       sender := "bbbbbbbbbbbbbbbbbbbbbbbb",
                       receiver := "cccccccccccccccccccccccc", read := false,
                       createdAt := 2, updatedAt := none }] }
      "aaaaaaaaaaaaaaaaaaaaaaaa" "bbbbbbbbbbbbbbbbbbbbbbbb" =
      .ok ({ users := [],
             messages := ([{ _id := "aaaaaaaaaaaaaaaaaaaaaaaa", content := "hola",
                             sender := "bbbbbbbbbbbbbbbbbbbbbbbb",
                             receiver := "cccccccccccccccccccccccc", read := false,
                             createdAt := 2, updatedAt := none }] : List Message).eraseP
               (ownedBy "aaaaaaaaaaaaaaaaaaaaaaaa" "bbbbbbbbbbbbbbbbbbbbbbbb") },
           { _id := "aaaaaaaaaaaaaaaaaaaaaaaa", content := "hola",
             sender := "bbbbbbbbbbbbbbbbbbbbbbbb",
             receiver := "cccccccccccccccccccccccc", read := false,
             createdAt := 2, updatedAt := none }) := by
  refine ⟨⟨by decide, by decide, by decide⟩, ?_⟩
  exact (deleteMessage_twice_spec
    { users := [],
      messages := [{ _id := "aaaaaaaaaaaaaaaaaaaaaaaa", content := "hola",
                     sender := "bbbbbbbbbbbbbbbbbbbbbbbb",
                     receiver := "cccccccccccccccccccccccc", read := false,
                     createdAt := 2, updatedAt := none }] }
    "aaaaaaaaaaaaaaaaaaaaaaaa" "bbbbbbbbbbbbbbbbbbbbbbbb"
    { _id := "aaaaaaaaaaaaaaaaaaaaaaaa", content := "hola",
      sender := "bbbbbbbbbbbbbbbbbbbbbbbb",
      receiver := "cccccccccccccccccccccccc", read := false,
      createdAt := 2, updatedAt := none }
    (by decide) (by decide) (by decide) (by decide)).1

/-- The pair filter does not depend on the order of the two identifiers. -/
theorem betweenPair_comm (a b : String) : betweenPair a b = betweenPair b a := by
  funext m
  exact Bool.or_comm _ _

/-- C2: the call `getMessagesBetweenUsers(A, B)` equals `getMessagesBetweenUsers(B, A)`,
contains exactly the stored messages whose (sender, receiver) is (A, B) or
(B, A), is ordered by `createdAt` descending, and is empty (not an error)
exactly when no such message exists. -/
theorem getMessagesBetweenUsers_pair_spec (store : Store) (a b : String) :
    getMessagesBetweenUsers store a b = getMessagesBetweenUsers store b a ∧
    (getMessagesBetweenUsers store a b).Perm
      (store.messages.filter (betweenPair a b)) ∧
    (∀ m : Message, m ∈ getMessagesBetweenUsers store a b ↔
      m ∈ store.messages ∧ betweenPair a b m = true) ∧
    (getMessagesBetweenUsers store a b).Sorted
      (fun x y => y.createdAt ≤ x.createdAt) ∧
    (getMessagesBetweenUsers store a b = [] ↔
      store.messages.filter (betweenPair a b) = []) := by
  have hperm : (getMessagesBetweenUsers store a b).Perm
      (store.messages.filter (betweenPair a b)) :=
    List.mergeSort_perm _ _
  refine ⟨?_, hperm, ?_, ?_, ?_⟩
  · unfold getMessagesBetweenUsers
    rw [betweenPair_comm]
  · intro m
    rw [hperm.mem_iff, List.mem_filter]
  · have hs := @List.sorted_mergeSort Message createdAtDesc
      (fun x y z h1 h2 => by
        simp only [createdAtDesc, decide_eq_true_eq] at h1 h2 ⊢
        omega)
      (fun x y => by
        simp only [createdAtDesc, Bool.or_eq_true, decide_eq_true_eq]
        omega)
      (store.messages.filter (betweenPair a b))
    exact hs.imp (fun h => by
      simpa only [createdAtDesc, decide_eq_true_eq] using h)
  · constructor
    · intro h
      have := hperm.symm
      rw [h] at this
      exact this.eq_nil
    · intro h
      unfold getMessagesBetweenUsers
      rw [h, List.mergeSort_nil]

theorem getMessagesBetweenUsers_pair_spec_witness :
    getMessagesBetweenUsers { users := [], messages := [] } "uno" "dos" =
      getMessagesBetweenUsers { users := [], messages := [] } "dos" "uno" ∧
    (getMessagesBetweenUsers { users := [], messages := [] } "uno" "dos").Perm
      (([] : List Message).filter (betweenPair "uno" "dos")) ∧
    (∀ m : Message,
      m ∈ getMessagesBetweenUsers { users := [], messages := [] } "uno" "dos" ↔
      m ∈ ([] : List Message) ∧ betweenPair "uno" "dos" m = true) ∧
    (getMessagesBetweenUsers { users := [], messages := [] } "uno" "dos").Sorted
      (fun x y => y.createdAt ≤ x.createdAt) ∧
    (getMessagesBetweenUsers { users := [], messages := [] } "uno" "dos" = [] ↔
      ([] : List Message).filter (betweenPair "uno" "dos") = []) :=
  getMessagesBetweenUsers_pair_spec { users := [], messages := [] } "uno" "dos"

/-- Every error `updateMessage` can raise is one of its four message
strings. -/
theorem updateMessage_error_cases {store : Store} {now : Nat}
    {messageId : String} {newContent : Option String} {senderId e : String}
    (h : updateMessage store now messageId newContent senderId = .error e) :
    e = invalidMessageIdMsg ∨ e = contentRequiredMsg ∨
      e = invalidSenderIdMsg ∨ e = updateNotFoundMsg := by
  unfold updateMessage at h
  split at h
  · simp only [Except.error.injEq] at h
    exact .inl h.symm
  · split at h
    · simp only [Except.error.injEq] at h
      exact .inr (.inl h.symm)
    · split at h
      · simp only [Except.error.injEq] at h
        exact .inr (.inr (.inl h.symm))
      · split at h
        · simp only [Except.error.injEq] at h
          exact .inr (.inr (.inr h.symm))
        · simp at h

/-- Every error `deleteMessage` can raise is one of its three message
strings. -/
theorem deleteMessage_error_cases {store : Store} {messageId senderId e : String}
    (h : deleteMessage store messageId senderId = .error e) :
    e = invalidMessageIdMsg ∨ e = invalidSenderIdMsg ∨ e = deleteNotFoundMsg := by
  unfold deleteMessage at h
  split at h
  · simp only [Except.error.injEq] at h
    exact .inl h.symm
  · split at h
    · simp only [Except.error.injEq] at h
      exact .inr (.inl h.symm)
    · split at h
      · simp only [Except.error.injEq] at h
        exact .inr (.inr h.symm)
      · simp at h

/-- The update controller can only answer 200, 400, 403 or 500. -/
theorem updateMessageController_mem (store : Store) (now : Nat)
    (messageId : String) (content senderId : Option String) :
    updateMessageController store now messageId content senderId = 200 ∨
    updateMessageController store now messageId content senderId = 400 ∨
    updateMessageController store now messageId content senderId = 403 ∨
    updateMessageController store now messageId content senderId = 500 := by
  unfold updateMessageController
  split
  · exact .inr (.inl rfl)
  · cases hserv : updateMessage store now messageId content (senderId.getD "") with
    | ok v => exact .inl rfl
    | error e =>
      rcases updateMessage_error_cases hserv with rfl | rfl | rfl | rfl
      · exact .inr (.inl (by decide))
      · exact .inr (.inr (.inr (by decide)))
      · exact .inr (.inl (by decide))
      · exact .inr (.inr (.inl (by decide)))

/-- The delete controller can only answer 200, 400, 403 or 500. -/
theorem deleteMessageController_mem (store : Store) (messageId : String)
    (senderId : Option String) :
    deleteMessageController store messageId senderId = 200 ∨
    deleteMessageController store messageId senderId = 400 ∨
    deleteMessageController store messageId senderId = 403 ∨
    deleteMessageController store messageId senderId = 500 := by
  unfold deleteMessageController
  split
  · exact .inr (.inl rfl)
  · cases hserv : deleteMessage store messageId (senderId.getD "") with
    | ok v => exact .inl rfl
    | error e =>
      rcases deleteMessage_error_cases hserv with rfl | rfl | rfl
      · exact .inr (.inl (by decide))
      · exact .inr (.inl (by decide))
      · exact .inr (.inr (.inl (by decide)))

/-- C8 as stated is false: the 404 branch of the update/delete controllers is
unreachable — no store and no input make either controller answer 404,
because the service's conflated error message matches the 'no tienes permiso'
substring before the 'no encontrado' check is reached. -/
theorem updateDelete_404_unreachable :
    ¬ ∃ (store : Store) (now : Nat) (messageId : String)
        (content senderId sid2 : Option String),
      updateMessageController store now messageId content senderId = 404 ∨
      deleteMessageController store messageId sid2 = 404 := by
  rintro ⟨store, now, messageId, content, senderId, sid2, h | h⟩
  · rcases updateMessageController_mem store now messageId content senderId with
      hc | hc | hc | hc <;> omega
  · rcases deleteMessageController_mem store messageId sid2 with
      hc | hc | hc | hc <;> omega

/-- C8 amended: update/delete failures surface as 400 (missing body fields or
invalid identifier), 403, or 500 — never 404. The conflated service error
contains both the "no tienes permiso" and the "no encontrado" substrings, and
the controller tests "no tienes permiso" first, so the conflated
not-found-or-not-owner outcome is always mapped to 403; the 403 outcome is
reachable, the 404 branch is dead for errors this service raises. -/
theorem updateDelete_status_mapping (store : Store) (now : Nat)
    (messageId : String) (content senderId sid2 : Option String) :
    (updateMessageController store now messageId content senderId = 200 ∨
     updateMessageController store now messageId content senderId = 400 ∨
     updateMessageController store now messageId content senderId = 403 ∨
     updateMessageController store now messageId content senderId = 500) ∧
    (deleteMessageController store messageId sid2 = 200 ∨
     deleteMessageController store messageId sid2 = 400 ∨
     deleteMessageController store messageId sid2 = 403 ∨
     deleteMessageController store messageId sid2 = 500) ∧
    includesSubstr updateNotFoundMsg noPermissionWord = true ∧
    includesSubstr updateNotFoundMsg notFoundWord = true ∧
    updateDeleteErrorStatus updateNotFoundMsg = 403 ∧
    updateDeleteErrorStatus deleteNotFoundMsg = 403 ∧
    updateMessageController { users := [], messages := [] } 0
      "aaaaaaaaaaaaaaaaaaaaaaaa" (some "hola")
      (some "bbbbbbbbbbbbbbbbbbbbbbbb") = 403 ∧
    deleteMessageController { users := [], messages := [] }
      "aaaaaaaaaaaaaaaaaaaaaaaa" (some "bbbbbbbbbbbbbbbbbbbbbbbb") = 403 :=
  ⟨updateMessageController_mem store now messageId content senderId,
   deleteMessageController_mem store messageId sid2,
   by decide, by decide, by decide, by decide, by decide, by decide⟩

theorem updateDelete_status_mapping_witness :
    (updateMessageController { users := [], messages := [] } 1
       "aaaaaaaaaaaaaaaaaaaaaaaa" (some "hola") (some "bbbbbbbbbbbbbbbbbbbbbbbb") = 200 ∨
     updateMessageController { users := [], messages := [] } 1
       "aaaaaaaaaaaaaaaaaaaaaaaa" (some "hola") (some "bbbbbbbbbbbbbbbbbbbbbbbb") = 400 ∨
     updateMessageController { users := [], messages := [] } 1
       "aaaaaaaaaaaaaaaaaaaaaaaa" (some "hola") (some "bbbbbbbbbbbbbbbbbbbbbbbb") = 403 ∨
     updateMessageController { users := [], messages := [] } 1
       "aaaaaaaaaaaaaaaaaaaaaaaa" (some "hola") (some "bbbbbbbbbbbbbbbbbbbbbbbb") = 500) ∧
    updateDeleteErrorStatus updateNotFoundMsg = 403 :=
  ⟨(updateDelete_status_mapping { users := [], messages := [] } 1
      "aaaaaaaaaaaaaaaaaaaaaaaa" (some "hola") (some "bbbbbbbbbbbbbbbbbbbbbbbb")
      (some "bbbbbbbbbbbbbbbbbbbbbbbb")).1,
   (updateDelete_status_mapping { users := [], messages := [] } 1
      "aaaaaaaaaaaaaaaaaaaaaaaa" (some "hola") (some "bbbbbbbbbbbbbbbbbbbbbbbb")
      (some "bbbbbbbbbbbbbbbbbbbbbbbb")).2.2.2.2.1⟩

/-- C9: `getMessagesBetweenUsers` validates neither identifier — for every
pair of input strings, malformed or not, the service issues the pair query
and never raises an error of its own, so the GET controller answers only 200
or 404; an error text lacking "inválido" (such as a persistence-layer cast
failure) would be mapped by its catch-block to 500, never to the 400
branch. -/
theorem getMessages_no_service_validation
    (store : Store) (u1 u2 : String) (e : String)
    (he : includesSubstr e invalidWord = false) :
    (getMessagesController store u1 u2 = 404 ∨
     getMessagesController store u1 u2 = 200) ∧
    getErrorStatus e = 500 := by
  constructor
  · unfold getMessagesController
    split
    · exact .inl rfl
    · exact .inr rfl
  · simp [getErrorStatus, he]

theorem getMessages_no_service_validation_witness :
    (getMessagesController { users := [], messages := [] }
        "not-a-valid-object-id" "%%%" = 404 ∨
     getMessagesController { users := [], messages := [] }
        "not-a-valid-object-id" "%%%" = 200) ∧
    getErrorStatus
      "Cast to ObjectId failed for value not-a-valid-object-id" = 500 :=
  getMessages_no_service_validation { users := [], messages := [] }
    "not-a-valid-object-id" "%%%"
    "Cast to ObjectId failed for value not-a-valid-object-id" (by decide)

end TrackIt
